import Mathlib

/-!
Shallow embedding of the cross-process remote-object proxying core of
yabridge's VST3 bridge, covering:

* `src/common/serialization/vst3/plugin-proxy.{h,cpp}`: the capability
  descriptor (`Vst3PluginProxy::ConstructArgs`), the monolithic proxy
  (`Vst3PluginProxy`), its `queryInterface` dispatch and the
  `update_supported_interfaces` re-discovery path;
* `src/common/communication/vst3.h`: the per-instance fast-channel registry
  (`Vst3Sockets`) with `add_audio_processor_and_connect`,
  `remove_audio_processor` and `receive_audio_processor_message_into`;
* `src/plugin/bridges/vst3-impls/plugin-factory-proxy.cpp`:
  `Vst3PluginFactoryProxyImpl::createInstance`.

C++ move construction/assignment is modelled with Lean value semantics
(a move is a copy of the value); reference counting (`addRef`) and logging
calls are not modelled, as no claim depends on them.
-/

/-- The closed catalogue of optional capabilities the proxy covers: one
constructor per `Ya*` base class of `Vst3PluginProxy`
(plugin-proxy.h lines 71-92), 22 in total. -/
inductive Capability where
  | audioPresentationLatency
  | audioProcessor
  | automationState
  | component
  | connectionPoint
  | editController
  | editController2
  | editControllerHostEditing
  | infoListener
  | keyswitchController
  | midiLearn
  | midiMapping
  | noteExpressionController
  | noteExpressionPhysicalUIMapping
  | parameterFunctionName
  | pluginBase
  | prefetchableSupport
  | processContextRequirements
  | programListData
  | unitData
  | unitInfo
  | xmlRepresentationController
  deriving DecidableEq, Repr

/-- Modelled from the spec: the per-capability `Ya*::ConstructArgs` types live
in the `plugin/*.h` headers, which are not part of the provided sources. Per
the spec's data model, each such field is either an absent/present flag, or
present with attached static metadata (such as the edit controller cid stored
by `YaComponent`). A default-constructed value describes an absent
capability. -/
structure SubArgs where
  supported : Bool := false
  metadata : Option Nat := none
  deriving DecidableEq, Repr

/-- Modelled from the spec: a handle to a real plugin object, as seen by the
discovery side. Probing the object for a capability (what the missing
one-argument `Ya*::ConstructArgs(object)` constructors do) yields the
per-capability arguments describing whether and how the object supports it. -/
abbrev RealObject := Capability → SubArgs

/-- The capability descriptor `Vst3PluginProxy::ConstructArgs`
(plugin-proxy.h lines 97-167): an instance identifier plus one per-capability
arguments field for each of the 22 capabilities. -/
structure ConstructArgs where
  instance_id : Nat := 0
  audio_presentation_latency_args : SubArgs := {}
  audio_processor_args : SubArgs := {}
  automation_state_args : SubArgs := {}
  component_args : SubArgs := {}
  connection_point_args : SubArgs := {}
  edit_controller_args : SubArgs := {}
  edit_controller_2_args : SubArgs := {}
  edit_controller_host_editing_args : SubArgs := {}
  info_listener_args : SubArgs := {}
  keyswitch_controller_args : SubArgs := {}
  midi_learn_args : SubArgs := {}
  midi_mapping_args : SubArgs := {}
  note_expression_controller_args : SubArgs := {}
  note_expression_physical_ui_mapping_args : SubArgs := {}
  parameter_function_name_args : SubArgs := {}
  plugin_base_args : SubArgs := {}
  prefetchable_support_args : SubArgs := {}
  process_context_requirements_args : SubArgs := {}
  program_list_data_args : SubArgs := {}
  unit_data_args : SubArgs := {}
  unit_info_args : SubArgs := {}
  xml_representation_controller_args : SubArgs := {}
  deriving DecidableEq, Repr

/-- The discovery constructor `ConstructArgs(object, instance_id)`
(plugin-proxy.cpp lines 21-45). Its member initializer list probes the real
object for 21 of the 22 capability fields; `note_expression_physical_ui_mapping_args`
does not appear in the initializer list (the list jumps from
`note_expression_controller_args(object)` straight to
`parameter_function_name_args(object)`), so that field is left
default-constructed instead of being probed. -/
def ConstructArgs.ofObject (object : RealObject) (instance_id : Nat) : ConstructArgs :=
  { instance_id := instance_id
    audio_presentation_latency_args := object Capability.audioPresentationLatency
    audio_processor_args := object Capability.audioProcessor
    automation_state_args := object Capability.automationState
    component_args := object Capability.component
    connection_point_args := object Capability.connectionPoint
    edit_controller_args := object Capability.editController
    edit_controller_2_args := object Capability.editController2
    edit_controller_host_editing_args := object Capability.editControllerHostEditing
    info_listener_args := object Capability.infoListener
    keyswitch_controller_args := object Capability.keyswitchController
    midi_learn_args := object Capability.midiLearn
    midi_mapping_args := object Capability.midiMapping
    note_expression_controller_args := object Capability.noteExpressionController
    note_expression_physical_ui_mapping_args := {}
    parameter_function_name_args := object Capability.parameterFunctionName
    plugin_base_args := object Capability.pluginBase
    prefetchable_support_args := object Capability.prefetchableSupport
    process_context_requirements_args := object Capability.processContextRequirements
    program_list_data_args := object Capability.programListData
    unit_data_args := object Capability.unitData
    unit_info_args := object Capability.unitInfo
    xml_representation_controller_args := object Capability.xmlRepresentationController }

/-- The descriptor field corresponding to a given capability. -/
def ConstructArgs.get (args : ConstructArgs) : Capability → SubArgs
  | Capability.audioPresentationLatency => args.audio_presentation_latency_args
  | Capability.audioProcessor => args.audio_processor_args
  | Capability.automationState => args.automation_state_args
  | Capability.component => args.component_args
  | Capability.connectionPoint => args.connection_point_args
  | Capability.editController => args.edit_controller_args
  | Capability.editController2 => args.edit_controller_2_args
  | Capability.editControllerHostEditing => args.edit_controller_host_editing_args
  | Capability.infoListener => args.info_listener_args
  | Capability.keyswitchController => args.keyswitch_controller_args
  | Capability.midiLearn => args.midi_learn_args
  | Capability.midiMapping => args.midi_mapping_args
  | Capability.noteExpressionController => args.note_expression_controller_args
  | Capability.noteExpressionPhysicalUIMapping => args.note_expression_physical_ui_mapping_args
  | Capability.parameterFunctionName => args.parameter_function_name_args
  | Capability.pluginBase => args.plugin_base_args
  | Capability.prefetchableSupport => args.prefetchable_support_args
  | Capability.processContextRequirements => args.process_context_requirements_args
  | Capability.programListData => args.program_list_data_args
  | Capability.unitData => args.unit_data_args
  | Capability.unitInfo => args.unit_info_args
  | Capability.xmlRepresentationController => args.xml_representation_controller_args

/-- The interface ids `queryInterface` compares `_iid` against
(plugin-proxy.cpp lines 89-203): `FUnknown`, `IPluginBase`, and the 21
per-capability Steinberg interface ids. The Steinberg SDK guarantees these
TUID constants are pairwise distinct; distinct constructors model that. -/
inductive InterfaceID where
  | FUnknown
  | IPluginBase
  | IAudioPresentationLatency
  | IAudioProcessor
  | IAutomationState
  | IComponent
  | IConnectionPoint
  | IEditController
  | IEditController2
  | IEditControllerHostEditing
  | IInfoListener
  | IKeyswitchController
  | IMidiLearn
  | IMidiMapping
  | INoteExpressionController
  | INoteExpressionPhysicalUIMapping
  | IParameterFunctionName
  | IPrefetchableSupport
  | IProcessContextRequirements
  | IProgramListData
  | IUnitData
  | IUnitInfo
  | IXmlRepresentationController
  deriving DecidableEq, Repr

/-- The interface id under which each capability in the catalogue is queried.
The `pluginBase` capability is queried via `IPluginBase` (the explicit
first block of `queryInterface`, which also answers `FUnknown` through the
same cast). -/
def Capability.iid : Capability → InterfaceID
  | Capability.audioPresentationLatency => InterfaceID.IAudioPresentationLatency
  | Capability.audioProcessor => InterfaceID.IAudioProcessor
  | Capability.automationState => InterfaceID.IAutomationState
  | Capability.component => InterfaceID.IComponent
  | Capability.connectionPoint => InterfaceID.IConnectionPoint
  | Capability.editController => InterfaceID.IEditController
  | Capability.editController2 => InterfaceID.IEditController2
  | Capability.editControllerHostEditing => InterfaceID.IEditControllerHostEditing
  | Capability.infoListener => InterfaceID.IInfoListener
  | Capability.keyswitchController => InterfaceID.IKeyswitchController
  | Capability.midiLearn => InterfaceID.IMidiLearn
  | Capability.midiMapping => InterfaceID.IMidiMapping
  | Capability.noteExpressionController => InterfaceID.INoteExpressionController
  | Capability.noteExpressionPhysicalUIMapping => InterfaceID.INoteExpressionPhysicalUIMapping
  | Capability.parameterFunctionName => InterfaceID.IParameterFunctionName
  | Capability.pluginBase => InterfaceID.IPluginBase
  | Capability.prefetchableSupport => InterfaceID.IPrefetchableSupport
  | Capability.processContextRequirements => InterfaceID.IProcessContextRequirements
  | Capability.programListData => InterfaceID.IProgramListData
  | Capability.unitData => InterfaceID.IUnitData
  | Capability.unitInfo => InterfaceID.IUnitInfo
  | Capability.xmlRepresentationController => InterfaceID.IXmlRepresentationController

/-- Steinberg `tresult` values used by the modelled code paths, plus a
catch-all for arbitrary codes carried in a `UniversalTResult`. -/
inductive TResult where
  | kResultOk
  | kNoInterface
  | kInvalidArgument
  | kNotImplemented
  | other (code : Int)
  deriving DecidableEq, Repr

/-- The outcome of `queryInterface`: the returned `tresult` together with the
value written to the `obj` out-parameter. `some i` models a non-null pointer
obtained by casting `this` to interface `i`; `none` models `nullptr`. -/
structure QueryInterfaceResult where
  result : TResult
  obj : Option InterfaceID
  deriving DecidableEq, Repr

/-- `Vst3PluginProxy` state: each `Ya*` base class holds its own `arguments_`
(moved from the corresponding descriptor field at construction), and the proxy
itself holds the whole descriptor in `arguments_` (plugin-proxy.h line 348). -/
structure Vst3PluginProxy where
  audio_presentation_latency_arguments : SubArgs
  audio_processor_arguments : SubArgs
  automation_state_arguments : SubArgs
  component_arguments : SubArgs
  connection_point_arguments : SubArgs
  edit_controller_arguments : SubArgs
  edit_controller_2_arguments : SubArgs
  edit_controller_host_editing_arguments : SubArgs
  info_listener_arguments : SubArgs
  keyswitch_controller_arguments : SubArgs
  midi_learn_arguments : SubArgs
  midi_mapping_arguments : SubArgs
  note_expression_controller_arguments : SubArgs
  note_expression_physical_ui_mapping_arguments : SubArgs
  parameter_function_name_arguments : SubArgs
  plugin_base_arguments : SubArgs
  prefetchable_support_arguments : SubArgs
  process_context_requirements_arguments : SubArgs
  program_list_data_arguments : SubArgs
  unit_data_arguments : SubArgs
  unit_info_arguments : SubArgs
  xml_representation_controller_arguments : SubArgs
  arguments_ : ConstructArgs
  deriving DecidableEq, Repr

/-- The constructor `Vst3PluginProxy(ConstructArgs&& args)`
(plugin-proxy.cpp lines 49-78): each base class is constructed from the
corresponding field of `args`, and the proxy keeps the descriptor itself in
`arguments_`. -/
def Vst3PluginProxy.construct (args : ConstructArgs) : Vst3PluginProxy :=
  { audio_presentation_latency_arguments := args.audio_presentation_latency_args
    audio_processor_arguments := args.audio_processor_args
    automation_state_arguments := args.automation_state_args
    component_arguments := args.component_args
    connection_point_arguments := args.connection_point_args
    edit_controller_arguments := args.edit_controller_args
    edit_controller_2_arguments := args.edit_controller_2_args
    edit_controller_host_editing_arguments := args.edit_controller_host_editing_args
    info_listener_arguments := args.info_listener_args
    keyswitch_controller_arguments := args.keyswitch_controller_args
    midi_learn_arguments := args.midi_learn_args
    midi_mapping_arguments := args.midi_mapping_args
    note_expression_controller_arguments := args.note_expression_controller_args
    note_expression_physical_ui_mapping_arguments := args.note_expression_physical_ui_mapping_args
    parameter_function_name_arguments := args.parameter_function_name_args
    plugin_base_arguments := args.plugin_base_args
    prefetchable_support_arguments := args.prefetchable_support_args
    process_context_requirements_arguments := args.process_context_requirements_args
    program_list_data_arguments := args.program_list_data_args
    unit_data_arguments := args.unit_data_args
    unit_info_arguments := args.unit_info_args
    xml_representation_controller_arguments := args.xml_representation_controller_args
    arguments_ := args }

/-- The per-capability `arguments_` of the sub-implementation (base class)
corresponding to a given capability; `Ya*::supported()` reads the `supported`
flag of this value. -/
def Vst3PluginProxy.sub (p : Vst3PluginProxy) : Capability → SubArgs
  | Capability.audioPresentationLatency => p.audio_presentation_latency_arguments
  | Capability.audioProcessor => p.audio_processor_arguments
  | Capability.automationState => p.automation_state_arguments
  | Capability.component => p.component_arguments
  | Capability.connectionPoint => p.connection_point_arguments
  | Capability.editController => p.edit_controller_arguments
  | Capability.editController2 => p.edit_controller_2_arguments
  | Capability.editControllerHostEditing => p.edit_controller_host_editing_arguments
  | Capability.infoListener => p.info_listener_arguments
  | Capability.keyswitchController => p.keyswitch_controller_arguments
  | Capability.midiLearn => p.midi_learn_arguments
  | Capability.midiMapping => p.midi_mapping_arguments
  | Capability.noteExpressionController => p.note_expression_controller_arguments
  | Capability.noteExpressionPhysicalUIMapping => p.note_expression_physical_ui_mapping_arguments
  | Capability.parameterFunctionName => p.parameter_function_name_arguments
  | Capability.pluginBase => p.plugin_base_arguments
  | Capability.prefetchableSupport => p.prefetchable_support_arguments
  | Capability.processContextRequirements => p.process_context_requirements_arguments
  | Capability.programListData => p.program_list_data_arguments
  | Capability.unitData => p.unit_data_arguments
  | Capability.unitInfo => p.unit_info_arguments
  | Capability.xmlRepresentationController => p.xml_representation_controller_arguments

/-- `Vst3PluginProxy::instance_id()` (plugin-proxy.h lines 233-235). -/
def Vst3PluginProxy.instance_id (p : Vst3PluginProxy) : Nat :=
  p.arguments_.instance_id

/-- `Vst3PluginProxy::queryInterface` (plugin-proxy.cpp lines 89-203).
Each C++ block `if (YaX::supported()) QUERY_INTERFACE(_iid, obj, X::iid, X)`
returns `kResultOk` with a cast pointer when the flag is set and the id
matches, and otherwise falls through to the next block; that is written here
as `if flag and id-match then hit else rest`. The first block answers both
`FUnknown` and `IPluginBase` with a cast through `YaPluginBase` when the
`pluginBase` capability is supported. If no block matches, `*obj` is set to
`nullptr` and `kNoInterface` is returned (lines 201-202). -/
def Vst3PluginProxy.queryInterface (p : Vst3PluginProxy) (iid : InterfaceID) :
    QueryInterfaceResult :=
  if p.plugin_base_arguments.supported ∧
      (iid = InterfaceID.FUnknown ∨ iid = InterfaceID.IPluginBase) then
    { result := TResult.kResultOk, obj := some InterfaceID.IPluginBase }
  else if p.audio_presentation_latency_arguments.supported ∧
      iid = InterfaceID.IAudioPresentationLatency then
    { result := TResult.kResultOk, obj := some InterfaceID.IAudioPresentationLatency }
  else if p.audio_processor_arguments.supported ∧ iid = InterfaceID.IAudioProcessor then
    { result := TResult.kResultOk, obj := some InterfaceID.IAudioProcessor }
  else if p.automation_state_arguments.supported ∧ iid = InterfaceID.IAutomationState then
    { result := TResult.kResultOk, obj := some InterfaceID.IAutomationState }
  else if p.component_arguments.supported ∧ iid = InterfaceID.IComponent then
    { result := TResult.kResultOk, obj := some InterfaceID.IComponent }
  else if p.connection_point_arguments.supported ∧ iid = InterfaceID.IConnectionPoint then
    { result := TResult.kResultOk, obj := some InterfaceID.IConnectionPoint }
  else if p.edit_controller_arguments.supported ∧ iid = InterfaceID.IEditController then
    { result := TResult.kResultOk, obj := some InterfaceID.IEditController }
  else if p.edit_controller_2_arguments.supported ∧ iid = InterfaceID.IEditController2 then
    { result := TResult.kResultOk, obj := some InterfaceID.IEditController2 }
  else if p.edit_controller_host_editing_arguments.supported ∧
      iid = InterfaceID.IEditControllerHostEditing then
    { result := TResult.kResultOk, obj := some InterfaceID.IEditControllerHostEditing }
  else if p.info_listener_arguments.supported ∧ iid = InterfaceID.IInfoListener then
    { result := TResult.kResultOk, obj := some InterfaceID.IInfoListener }
  else if p.keyswitch_controller_arguments.supported ∧
      iid = InterfaceID.IKeyswitchController then
    { result := TResult.kResultOk, obj := some InterfaceID.IKeyswitchController }
  else if p.midi_learn_arguments.supported ∧ iid = InterfaceID.IMidiLearn then
    { result := TResult.kResultOk, obj := some InterfaceID.IMidiLearn }
  else if p.midi_mapping_arguments.supported ∧ iid = InterfaceID.IMidiMapping then
    { result := TResult.kResultOk, obj := some InterfaceID.IMidiMapping }
  else if p.note_expression_controller_arguments.supported ∧
      iid = InterfaceID.INoteExpressionController then
    { result := TResult.kResultOk, obj := some InterfaceID.INoteExpressionController }
  else if p.note_expression_physical_ui_mapping_arguments.supported ∧
      iid = InterfaceID.INoteExpressionPhysicalUIMapping then
    { result := TResult.kResultOk, obj := some InterfaceID.INoteExpressionPhysicalUIMapping }
  else if p.parameter_function_name_arguments.supported ∧
      iid = InterfaceID.IParameterFunctionName then
    { result := TResult.kResultOk, obj := some InterfaceID.IParameterFunctionName }
  else if p.prefetchable_support_arguments.supported ∧
      iid = InterfaceID.IPrefetchableSupport then
    { result := TResult.kResultOk, obj := some InterfaceID.IPrefetchableSupport }
  else if p.process_context_requirements_arguments.supported ∧
      iid = InterfaceID.IProcessContextRequirements then
    { result := TResult.kResultOk, obj := some InterfaceID.IProcessContextRequirements }
  else if p.program_list_data_arguments.supported ∧ iid = InterfaceID.IProgramListData then
    { result := TResult.kResultOk, obj := some InterfaceID.IProgramListData }
  else if p.unit_data_arguments.supported ∧ iid = InterfaceID.IUnitData then
    { result := TResult.kResultOk, obj := some InterfaceID.IUnitData }
  else if p.unit_info_arguments.supported ∧ iid = InterfaceID.IUnitInfo then
    { result := TResult.kResultOk, obj := some InterfaceID.IUnitInfo }
  else if p.xml_representation_controller_arguments.supported ∧
      iid = InterfaceID.IXmlRepresentationController then
    { result := TResult.kResultOk, obj := some InterfaceID.IXmlRepresentationController }
  else
    { result := TResult.kNoInterface, obj := none }

/-- `Vst3PluginProxy::update_supported_interfaces`
(plugin-proxy.cpp lines 205-250): after asserting that the replacement
descriptor carries the proxy's own instance id (line 207, modelled as a guard
returning `none` on violation), every base class's `arguments_` is replaced by
the corresponding field of the new descriptor, and finally the proxy's own
`arguments_` is replaced by the new descriptor. -/
def Vst3PluginProxy.update_supported_interfaces (p : Vst3PluginProxy)
    (updated_interfaces : ConstructArgs) : Option Vst3PluginProxy :=
  if p.arguments_.instance_id = updated_interfaces.instance_id then
    some
      { audio_presentation_latency_arguments :=
          updated_interfaces.audio_presentation_latency_args
        audio_processor_arguments := updated_interfaces.audio_processor_args
        automation_state_arguments := updated_interfaces.automation_state_args
        component_arguments := updated_interfaces.component_args
        connection_point_arguments := updated_interfaces.connection_point_args
        edit_controller_arguments := updated_interfaces.edit_controller_args
        edit_controller_2_arguments := updated_interfaces.edit_controller_2_args
        edit_controller_host_editing_arguments :=
          updated_interfaces.edit_controller_host_editing_args
        info_listener_arguments := updated_interfaces.info_listener_args
        keyswitch_controller_arguments := updated_interfaces.keyswitch_controller_args
        midi_learn_arguments := updated_interfaces.midi_learn_args
        midi_mapping_arguments := updated_interfaces.midi_mapping_args
        note_expression_controller_arguments :=
          updated_interfaces.note_expression_controller_args
        note_expression_physical_ui_mapping_arguments :=
          updated_interfaces.note_expression_physical_ui_mapping_args
        parameter_function_name_arguments :=
          updated_interfaces.parameter_function_name_args
        plugin_base_arguments := updated_interfaces.plugin_base_args
        prefetchable_support_arguments := updated_interfaces.prefetchable_support_args
        process_context_requirements_arguments :=
          updated_interfaces.process_context_requirements_args
        program_list_data_arguments := updated_interfaces.program_list_data_args
        unit_data_arguments := updated_interfaces.unit_data_args
        unit_info_arguments := updated_interfaces.unit_info_args
        xml_representation_controller_arguments :=
          updated_interfaces.xml_representation_controller_args
        arguments_ := updated_interfaces }
  else
    none

/-- A real object supporting every capability in the catalogue; used as the
probing input exhibiting the missing initializer for
`note_expression_physical_ui_mapping_args`. -/
def fullSupportObject : RealObject := fun _ => { supported := true, metadata := none }

/-- Modelled from the spec: `AdHocSocketHandler` (`common/communication/common.h`)
is not among the provided sources; only its callers and docstrings in
`common/communication/vst3.h` are. Per spec section 4.1 and the in-source
comment at vst3.h lines 137-141, a channel owns one long-lived primary
connection plus zero or more ad-hoc secondary connections, and `send` uses the
primary connection when it is free and spawns a brand-new connection when the
primary is currently in use (in particular when the calling thread itself is
blocked inside a receive loop on it). `primary_owner` is the thread currently
occupying the primary connection, `secondary_conns` the ad-hoc connections
spawned so far, and `next_conn` the next fresh connection id. -/
structure MessageChannel where
  primary_owner : Option Nat := none
  secondary_conns : List Nat := []
  next_conn : Nat := 0
  connected : Bool := false
  deriving DecidableEq, Repr

/-- Which connection a `send` call ends up using: the primary connection, or a
freshly spawned ad-hoc connection with the given id. -/
inductive SendRoute where
  | onPrimary
  | onFresh (conn : Nat)
  deriving DecidableEq, Repr

/-- Modelled from the spec: the connection-routing decision inside
`AdHocSocketHandler::send` (spec section 4.1 and design note on ad-hoc
connection spawning). If the primary connection is free, the call takes it and
occupies it for the duration of the call; if the primary connection is in use
by any thread, the caller included, a new secondary connection is established
and used instead. -/
def MessageChannel.route_send (ch : MessageChannel) (caller : Nat) :
    SendRoute × MessageChannel :=
  match ch.primary_owner with
  | none => (SendRoute.onPrimary, { ch with primary_owner := some caller })
  | some _ =>
      (SendRoute.onFresh ch.next_conn,
        { ch with
            secondary_conns := ch.next_conn :: ch.secondary_conns
            next_conn := ch.next_conn + 1 })

/-- The per-instance fast-channel map `Vst3Sockets::audio_processor_sockets_`
(vst3.h lines 529-531), an `unordered_map` from instance id to a
`Vst3MessageHandler`, modelled as an association list with unique keys. -/
abbrev SocketMap := List (Nat × MessageChannel)

/-- `unordered_map::contains`. -/
def mapContains (m : SocketMap) (k : Nat) : Bool :=
  m.any (fun e => e.1 == k)

/-- `unordered_map::at`, lookup without insertion: `none` models the
`std::out_of_range` exception thrown for a missing key. -/
def mapLookup (m : SocketMap) (k : Nat) : Option MessageChannel :=
  (m.find? (fun e => e.1 == k)).map Prod.snd

/-- `unordered_map::erase(key)`. -/
def mapErase (m : SocketMap) (k : Nat) : SocketMap :=
  m.filter (fun e => !(e.1 == k))

/-- Apply a function to the entry for `k`, if present; other entries are
untouched and no entry is created. -/
def mapUpdate (m : SocketMap) (k : Nat) (f : MessageChannel → MessageChannel) :
    SocketMap :=
  m.map (fun e => if e.1 == k then (e.1, f e.2) else e)

/-- `Vst3MessageHandler::close`, which forcibly closes the channel's
sockets. -/
def MessageChannel.close_channel (ch : MessageChannel) : MessageChannel :=
  { ch with connected := false, primary_owner := none, secondary_conns := [] }

/-- `Vst3Sockets::add_audio_processor_and_connect` (vst3.h lines 353-363):
`try_emplace` a fast channel for the instance id (no replacement when one
already exists) and connect it. -/
def add_audio_processor_and_connect (m : SocketMap) (instance_id : Nat) : SocketMap :=
  let m' :=
    if mapContains m instance_id then m
    else m ++ [(instance_id,
      { primary_owner := none, secondary_conns := [], next_conn := 0, connected := false })]
  mapUpdate m' instance_id (fun ch => { ch with connected := true })

/-- `Vst3Sockets::remove_audio_processor` (vst3.h lines 419-429): if the map
contains the instance id, close that channel, erase it, and return `true`;
otherwise return `false` and leave the map unchanged. -/
def remove_audio_processor (m : SocketMap) (instance_id : Nat) : Bool × SocketMap :=
  if mapContains m instance_id then
    (true, mapErase (mapUpdate m instance_id MessageChannel.close_channel) instance_id)
  else
    (false, m)

/-- `Vst3Sockets::receive_audio_processor_message_into`
(vst3.h lines 503-514): look the fast channel up with
`audio_processor_sockets_.at(instance_id)` — which throws for a missing key
and never inserts — and forward the call to that channel's `receive_into`,
whose `send` routes the call onto the primary or a freshly spawned connection
(vst3.h lines 137-144). Returns the chosen route and the updated map, or
`none` for the lookup failure. -/
def receive_audio_processor_message_into (m : SocketMap) (instance_id : Nat)
    (caller : Nat) : Option (SendRoute × SocketMap) :=
  match mapLookup m instance_id with
  | some ch =>
      let rs := ch.route_send caller
      some (rs.1, mapUpdate m instance_id (fun _ => rs.2))
  | none => none

/-- `Vst3Sockets::send_audio_processor_message` (vst3.h lines 440-447):
forwards to `receive_audio_processor_message_into` with the request's own
`instance_id` field. -/
structure AudioProcessorRequest where
  instance_id : Nat
  deriving DecidableEq, Repr

/-- See `AudioProcessorRequest`. -/
def send_audio_processor_message (m : SocketMap) (object : AudioProcessorRequest)
    (caller : Nat) : Option (SendRoute × SocketMap) :=
  receive_audio_processor_message_into m object.instance_id caller

/-- Modelled from the spec: the Steinberg SDK constant
`Steinberg::Vst::IComponent::iid`, an externally fixed 16-byte TUID. Only the
facts that it has 16 non-zero bytes and differs from the `IEditController`
TUID are used. -/
def icomponent_tuid : List Nat := List.replicate 16 1

/-- Modelled from the spec: the Steinberg SDK constant
`Steinberg::Vst::IEditController::iid`. -/
def ieditcontroller_tuid : List Nat := List.replicate 16 2

/-- C `strnlen(s, n)`: the number of bytes before the first NUL byte,
capped at `n`; a buffer shorter than `n` without a NUL also yields fewer
than `n` bytes. -/
def strnlen (s : List Nat) (n : Nat) : Nat :=
  ((s.take n).takeWhile (fun b => b != 0)).length

/-- The two interfaces `createInstance` is willing to instantiate
(`Vst3PluginProxy::Construct::Interface`, plugin-proxy.h lines 184-187). -/
inductive RequestedInterface where
  | IComponent
  | IEditController
  deriving DecidableEq, Repr

/-- The response variant of the `Construct` exchange
(`Vst3PluginProxy::Construct::Response`, plugin-proxy.h line 175):
either the capability descriptor of the newly created remote object, or a
`UniversalTResult` failure status. -/
inductive ConstructResponse where
  | constructed (args : ConstructArgs)
  | failed (code : TResult)
  deriving DecidableEq, Repr

/-- What `createInstance` leaves in the `obj` out-parameter: untouched,
`nullptr`, or a freshly allocated proxy downcast to the requested
interface. -/
inductive ObjSlot where
  | untouched
  | nullWritten
  | proxyWritten (proxy : Vst3PluginProxy) (iface : RequestedInterface)
  deriving DecidableEq, Repr

/-- The observable outcome of one `createInstance` call: the returned
`tresult`, the final state of the `obj` out-parameter, and whether a
`Construct` message was sent to the Wine side. -/
structure CreateInstanceOutcome where
  result : TResult
  objSlot : ObjSlot
  sent : Bool
  deriving DecidableEq, Repr

/-- `Vst3PluginFactoryProxyImpl::createInstance`
(plugin-factory-proxy.cpp lines 40-106). Inputs: the `cid` buffer (`none`
models a null pointer), the `_iid` string (`none` models a null pointer), and
whether `obj` is non-null. `remote` is the `Construct::Response` the bridge's
`send_mutually_recursive_message` would deliver; it is consulted only on the
path that actually sends the message. Steps, in source order: null checks and
`strnlen(_iid, sizeof(TUID)) < sizeof(TUID)` return `kInvalidArgument`
untouched; an id that is neither `IComponent::iid` nor `IEditController::iid`
writes `nullptr` and returns `kNotImplemented`; otherwise the `Construct`
message is sent, and the response variant decides between allocating a
`Vst3PluginProxyImpl` (modelled by `Vst3PluginProxy.construct`), storing its
downcast in `obj` and returning `kResultOk`, or returning the delivered
failure code with `obj` untouched. -/
def createInstance (cid : Option (List Nat)) (iidStr : Option (List Nat))
    (objProvided : Bool) (remote : ConstructResponse) : CreateInstanceOutcome :=
  match cid, iidStr, objProvided with
  | some _, some s, true =>
    if strnlen s 16 < 16 then
      { result := TResult.kInvalidArgument, objSlot := ObjSlot.untouched, sent := false }
    else
      let requested_iid := s.take 16
      if requested_iid = icomponent_tuid then
        match remote with
        | ConstructResponse.constructed args =>
            { result := TResult.kResultOk
              objSlot := ObjSlot.proxyWritten (Vst3PluginProxy.construct args)
                RequestedInterface.IComponent
              sent := true }
        | ConstructResponse.failed code =>
            { result := code, objSlot := ObjSlot.untouched, sent := true }
      else if requested_iid = ieditcontroller_tuid then
        match remote with
        | ConstructResponse.constructed args =>
            { result := TResult.kResultOk
              objSlot := ObjSlot.proxyWritten (Vst3PluginProxy.construct args)
                RequestedInterface.IEditController
              sent := true }
        | ConstructResponse.failed code =>
            { result := code, objSlot := ObjSlot.untouched, sent := true }
      else
        { result := TResult.kNotImplemented, objSlot := ObjSlot.nullWritten, sent := false }
  | _, _, _ =>
    { result := TResult.kInvalidArgument, objSlot := ObjSlot.untouched, sent := false }

/-- The requested-interface dispatch of `createInstance`
(plugin-factory-proxy.cpp lines 58-73): an id equal to `IComponent::iid` is
the request for `Interface::IComponent`, an id equal to
`IEditController::iid` the request for `Interface::IEditController`, and any
other id is refused (`none`). The proxy stored in `*obj` on success must be
downcast to exactly this interface. -/
def requested_interface_of (s : List Nat) : Option RequestedInterface :=
  if s.take 16 = icomponent_tuid then some RequestedInterface.IComponent
  else if s.take 16 = ieditcontroller_tuid then some RequestedInterface.IEditController
  else none

/-- A sample descriptor with instance id 5, used by witnesses. -/
def sampleArgsA : ConstructArgs :=
  { instance_id := 5
    audio_processor_args := { supported := true, metadata := none }
    component_args := { supported := true, metadata := some 3 }
    plugin_base_args := { supported := true, metadata := none } }

/-- A second sample descriptor with the same instance id 5 but a different
capability set, used by witnesses as a re-discovery replacement. -/
def sampleArgsB : ConstructArgs :=
  { instance_id := 5
    edit_controller_args := { supported := true, metadata := none }
    midi_mapping_args := { supported := true, metadata := none }
    plugin_base_args := { supported := true, metadata := some 9 } }

/-- A fast channel whose primary connection is currently occupied by thread 1,
as it is during an in-flight call, or while thread 1 sits in the channel's
blocking receive loop. -/
def reentrantChannel : MessageChannel :=
  { primary_owner := some 1, secondary_conns := [], next_conn := 0, connected := true }

/-- Reading a sub-implementation's `arguments_` right after construction gives
the corresponding descriptor field. -/
theorem construct_sub (args : ConstructArgs) (c : Capability) :
    (Vst3PluginProxy.construct args).sub c = args.get c := by
  cases c <;> rfl

/-- Construction keeps the descriptor itself. -/
theorem construct_arguments (args : ConstructArgs) :
    (Vst3PluginProxy.construct args).arguments_ = args :=
  rfl

/-- Evaluating the `queryInterface` dispatch chain at the interface id of a
catalogue capability: every non-matching block falls through regardless of its
flag (the Steinberg ids are pairwise distinct), so the outcome depends only on
the queried capability's own flag. -/
theorem queryInterface_eval (p : Vst3PluginProxy) (c : Capability) :
    p.queryInterface c.iid =
      if (p.sub c).supported then
        { result := TResult.kResultOk, obj := some c.iid }
      else
        { result := TResult.kNoInterface, obj := none } := by
  cases c <;>
    simp [Vst3PluginProxy.queryInterface, Vst3PluginProxy.sub, Capability.iid]

/-- Claim C1: for every capability descriptor marking a subset S of the closed
catalogue present, a `Vst3PluginProxy` constructed from it answers
`queryInterface` with `kResultOk` and a non-null interface pointer for exactly
the capabilities in S, and with `kNoInterface` and `*obj` set to `nullptr` for
every capability in the complement of S. -/
theorem vst3PluginProxy_queryInterface_mirrors_descriptor (args : ConstructArgs)
    (c : Capability) :
    ((((Vst3PluginProxy.construct args).queryInterface c.iid).result = TResult.kResultOk ∧
        (((Vst3PluginProxy.construct args).queryInterface c.iid).obj).isSome = true) ↔
      (args.get c).supported = true) ∧
    ((((Vst3PluginProxy.construct args).queryInterface c.iid).result = TResult.kNoInterface ∧
        ((Vst3PluginProxy.construct args).queryInterface c.iid).obj = none) ↔
      (args.get c).supported = false) := by
  rw [queryInterface_eval, construct_sub]
  cases h : (args.get c).supported <;> simp [h]

/-- Claim C2 (code bug evidence): the discovery constructor
`ConstructArgs(object, instance_id)` omits
`note_expression_physical_ui_mapping_args` from its member initializer list,
so for a real object that supports every capability — including
`INoteExpressionPhysicalUIMapping` — the resulting descriptor still marks the
note-expression physical-UI-mapping capability as unsupported, while the
neighbouring probed fields do reflect the object's support. -/
theorem constructArgs_discovery_omits_note_expression_physical_ui_mapping :
    (ConstructArgs.ofObject fullSupportObject 7).note_expression_physical_ui_mapping_args.supported
        = false ∧
    (fullSupportObject Capability.noteExpressionPhysicalUIMapping).supported = true ∧
    (ConstructArgs.ofObject fullSupportObject 7).note_expression_controller_args.supported
        = true ∧
    (ConstructArgs.ofObject fullSupportObject 7).parameter_function_name_args.supported
        = true := by
  decide

/-- Claim C3: when `update_supported_interfaces` is given a replacement
descriptor carrying the proxy's own instance id (so the assertion passes), it
replaces the proxy's entire descriptor and every capability
sub-implementation's `arguments_` with the corresponding field of the new
descriptor; no sub-implementation retains configuration from the old
descriptor. -/
theorem update_supported_interfaces_replaces_all (p : Vst3PluginProxy)
    (u : ConstructArgs) (p' : Vst3PluginProxy)
    (h : p.update_supported_interfaces u = some p') :
    p'.arguments_ = u ∧ ∀ c : Capability, p'.sub c = u.get c := by
  unfold Vst3PluginProxy.update_supported_interfaces at h
  split at h
  · cases h
    refine ⟨rfl, fun c => ?_⟩
    cases c <;> rfl
  · cases h

/-- Witness for C3 at a concrete proxy and replacement descriptor. -/
theorem update_supported_interfaces_replaces_all_witness :
    ((Vst3PluginProxy.construct sampleArgsA).update_supported_interfaces sampleArgsB =
        some (Vst3PluginProxy.construct sampleArgsB)) ∧
    (Vst3PluginProxy.construct sampleArgsB).arguments_ = sampleArgsB ∧
    (Vst3PluginProxy.construct sampleArgsB).sub Capability.editController =
      sampleArgsB.get Capability.editController :=
  ⟨by decide,
    (update_supported_interfaces_replaces_all (Vst3PluginProxy.construct sampleArgsA)
      sampleArgsB (Vst3PluginProxy.construct sampleArgsB) (by decide)).1,
    (update_supported_interfaces_replaces_all (Vst3PluginProxy.construct sampleArgsA)
      sampleArgsB (Vst3PluginProxy.construct sampleArgsB) (by decide)).2
      Capability.editController⟩

/-- Claim C8: the proxy's instance identifier is fixed at construction;
`update_supported_interfaces` — the only descriptor-mutating operation
(`queryInterface` never touches the proxy state in this model) — succeeds
only when the replacement descriptor carries that same identifier, and the
updated proxy still reports it. -/
theorem vst3PluginProxy_instance_id_constant (args u : ConstructArgs)
    (p' : Vst3PluginProxy)
    (h : (Vst3PluginProxy.construct args).update_supported_interfaces u = some p') :
    (Vst3PluginProxy.construct args).instance_id = args.instance_id ∧
    u.instance_id = args.instance_id ∧
    p'.instance_id = args.instance_id := by
  unfold Vst3PluginProxy.update_supported_interfaces at h
  split at h
  next heq =>
    cases h
    refine ⟨rfl, ?_, ?_⟩
    · exact (heq.symm.trans rfl)
    · simpa [Vst3PluginProxy.instance_id] using heq.symm
  next => cases h

/-- Witness for C8 at a concrete proxy and replacement descriptor. -/
theorem vst3PluginProxy_instance_id_constant_witness :
    (Vst3PluginProxy.construct sampleArgsA).instance_id = sampleArgsA.instance_id ∧
    sampleArgsB.instance_id = sampleArgsA.instance_id ∧
    (Vst3PluginProxy.construct sampleArgsB).instance_id = sampleArgsA.instance_id :=
  vst3PluginProxy_instance_id_constant sampleArgsA sampleArgsB
    (Vst3PluginProxy.construct sampleArgsB) (by decide)

/-- Erasing a key from the socket map removes every binding for it. -/
theorem mapLookup_mapErase_self (m : SocketMap) (k : Nat) :
    mapLookup (mapErase m k) k = none := by
  induction m with
  | nil => rfl
  | cons e t ih =>
      by_cases h : e.1 = k
      · simp only [mapErase, List.filter_cons] at ih ⊢
        simp [h]
        simpa [h] using ih
      · simp only [mapErase, List.filter_cons] at ih ⊢
        simp only [mapLookup] at ih ⊢
        simp [h]

/-- A key the map does not contain has no binding. -/
theorem mapLookup_eq_none_of_not_contains (m : SocketMap) (k : Nat)
    (h : mapContains m k = false) : mapLookup m k = none := by
  induction m with
  | nil => rfl
  | cons e t ih =>
      simp only [mapContains, List.any_cons, Bool.or_eq_false_iff] at h
      have he : ¬ e.1 = k := by simpa using h.1
      have ht := ih (by simpa [mapContains] using h.2)
      simp only [mapLookup] at ht ⊢
      simp [he, ht]

/-- `mapUpdate` never adds or removes a key. -/
theorem mapContains_mapUpdate (m : SocketMap) (k k' : Nat)
    (f : MessageChannel → MessageChannel) :
    mapContains (mapUpdate m k f) k' = mapContains m k' := by
  induction m with
  | nil => rfl
  | cons e t ih =>
      by_cases h : e.1 = k <;>
        simp_all [mapUpdate, mapContains, List.any_cons, h]

/-- Claim C7: `remove_audio_processor(id)` returns `true` exactly when a fast
channel for `id` was registered at the time of the call, and in both cases the
map contains no entry for `id` afterwards. -/
theorem remove_audio_processor_contains_iff (m : SocketMap) (instance_id : Nat) :
    ((remove_audio_processor m instance_id).1 = true ↔
      mapContains m instance_id = true) ∧
    mapLookup (remove_audio_processor m instance_id).2 instance_id = none := by
  unfold remove_audio_processor
  by_cases h : mapContains m instance_id = true
  · simp [h, mapLookup_mapErase_self]
  · have hf : mapContains m instance_id = false := by
      simpa using h
    simp [hf, mapLookup_eq_none_of_not_contains m instance_id hf]

/-- Claim C10: sending a fast-channel message requires the instance's channel
to be registered. The `at(instance_id)` lookup fails (throws, modelled as
`none`) for an unregistered instance id, and a successful call never adds or
removes a channel; `send_audio_processor_message` is the same operation keyed
by the request's own `instance_id` field. -/
theorem receive_audio_processor_message_requires_registration (m : SocketMap)
    (instance_id caller : Nat) :
    (mapContains m instance_id = false →
      receive_audio_processor_message_into m instance_id caller = none) ∧
    (∀ out, receive_audio_processor_message_into m instance_id caller = some out →
      ∀ k, mapContains out.2 k = mapContains m k) ∧
    send_audio_processor_message m { instance_id := instance_id } caller =
      receive_audio_processor_message_into m instance_id caller := by
  refine ⟨?_, ?_, rfl⟩
  · intro h
    unfold receive_audio_processor_message_into
    rw [mapLookup_eq_none_of_not_contains m instance_id h]
  · intro out hout k
    unfold receive_audio_processor_message_into at hout
    cases hl : mapLookup m instance_id with
    | none => rw [hl] at hout; cases hout
    | some ch =>
        rw [hl] at hout
        cases hout
        exact mapContains_mapUpdate m instance_id k (fun _ => (ch.route_send caller).2)

/-- Witness for C10: sending for the never-registered instance id 3 on an
empty registry fails with the lookup error. -/
theorem receive_audio_processor_message_requires_registration_witness :
    receive_audio_processor_message_into [] 3 0 = none :=
  (receive_audio_processor_message_requires_registration [] 3 0).1 rfl

/-- Claim C4: a `send` issued by a thread that is already blocking on the
channel's primary connection is routed onto a newly established connection,
never back onto the primary connection it is itself occupying, so the
reentrant callback-while-handling-a-call case never waits on its own
connection. The freshness hypothesis says the spawned-connection counter
dominates every previously spawned connection id. -/
theorem send_reentrant_uses_fresh_connection (ch : MessageChannel) (caller : Nat)
    (hown : ch.primary_owner = some caller)
    (hfresh : ∀ c ∈ ch.secondary_conns, c < ch.next_conn) :
    (ch.route_send caller).1 ≠ SendRoute.onPrimary ∧
    (ch.route_send caller).1 = SendRoute.onFresh ch.next_conn ∧
    ch.next_conn ∉ ch.secondary_conns := by
  refine ⟨?_, ?_, fun hmem => absurd (hfresh _ hmem) (lt_irrefl _)⟩ <;>
    simp [MessageChannel.route_send, hown]

/-- Witness for C4: thread 1 occupies the primary connection of
`reentrantChannel`; its own nested send is routed onto fresh connection 0. -/
theorem send_reentrant_uses_fresh_connection_witness :
    (reentrantChannel.route_send 1).1 ≠ SendRoute.onPrimary ∧
    (reentrantChannel.route_send 1).1 = SendRoute.onFresh reentrantChannel.next_conn ∧
    reentrantChannel.next_conn ∉ reentrantChannel.secondary_conns :=
  send_reentrant_uses_fresh_connection reentrantChannel 1 rfl
    (by simp [reentrantChannel])

/-- Claim C5 (code bug evidence): the fast-channel map's value type is the
same ad-hoc `Vst3MessageHandler` used by the general-purpose channels. The
comment at vst3.h lines 524-527 says a last `false` template argument disables
all ad-hoc socket and thread spawning, but `Vst3MessageHandler` is declared
with exactly two template parameters (vst3.h line 43) and no such argument
exists in the map's value type (vst3.h lines 529-531). Consequently a
per-instance call made while the instance's primary connection is occupied
spawns a second ad-hoc connection on that fast channel: after registering
instance 7, a first call by thread 1 occupies the primary connection, and a
concurrent second call by thread 2 is routed onto freshly spawned connection
0 — the fast channel then no longer has exactly one connection. -/
theorem fast_channel_spawns_secondary_connection :
    receive_audio_processor_message_into (add_audio_processor_and_connect [] 7) 7 1 =
      some (SendRoute.onPrimary, [(7, reentrantChannel)]) ∧
    receive_audio_processor_message_into [(7, reentrantChannel)] 7 2 =
      some (SendRoute.onFresh 0,
        [(7, { primary_owner := some 1, secondary_conns := [0], next_conn := 1,
               connected := true })]) := by
  decide

/-- Claim C6: whenever `createInstance` reaches the `Construct` exchange, a
failure-variant response (`UniversalTResult`) makes it return exactly that
status code with no proxy object created (`obj` untouched), and only a
descriptor-variant response makes it allocate a proxy from the received
arguments, store it in `*obj` downcast to exactly the interface requested by
the call's `_iid` (as classified by `requested_interface_of`), and return
`kResultOk`. -/
theorem createInstance_construct_response_outcome (cid iidStr : Option (List Nat))
    (objProvided : Bool) (remote : ConstructResponse)
    (h : (createInstance cid iidStr objProvided remote).sent = true) :
    (∀ code, remote = ConstructResponse.failed code →
      (createInstance cid iidStr objProvided remote).result = code ∧
      (createInstance cid iidStr objProvided remote).objSlot = ObjSlot.untouched) ∧
    (∀ args, remote = ConstructResponse.constructed args →
      (createInstance cid iidStr objProvided remote).result = TResult.kResultOk ∧
      ∀ s, iidStr = some s →
        some (createInstance cid iidStr objProvided remote).objSlot =
          (requested_interface_of s).map
            (ObjSlot.proxyWritten (Vst3PluginProxy.construct args))) := by
  have key : ∃ s iface, iidStr = some s ∧ requested_interface_of s = some iface ∧
      createInstance cid iidStr objProvided remote =
        (match remote with
          | ConstructResponse.constructed args =>
              { result := TResult.kResultOk
                objSlot := ObjSlot.proxyWritten (Vst3PluginProxy.construct args) iface
                sent := true }
          | ConstructResponse.failed code =>
              { result := code, objSlot := ObjSlot.untouched, sent := true }) := by
    cases cid with
    | none => simp [createInstance] at h
    | some c =>
      cases iidStr with
      | none => simp [createInstance] at h
      | some s =>
        cases objProvided with
        | false => simp [createInstance] at h
        | true =>
          by_cases hlen : strnlen s 16 < 16
          · simp [createInstance, hlen] at h
          · by_cases hic : s.take 16 = icomponent_tuid
            · refine ⟨s, RequestedInterface.IComponent, rfl, ?_, ?_⟩
              · simp [requested_interface_of, hic]
              · cases remote <;> simp [createInstance, hlen, hic]
            · by_cases hec : s.take 16 = ieditcontroller_tuid
              · have hne : ¬ ieditcontroller_tuid = icomponent_tuid := by decide
                refine ⟨s, RequestedInterface.IEditController, rfl, ?_, ?_⟩
                · simp [requested_interface_of, hic, hec, hne]
                · cases remote <;> simp [createInstance, hlen, hic, hec, hne]
              · simp [createInstance, hlen, hic, hec] at h
  obtain ⟨s, iface, hs, hcls, hkey⟩ := key
  rw [hkey]
  cases remote with
  | constructed args =>
      refine ⟨fun code hcode => ?_, fun args2 hargs => ?_⟩
      · cases hcode
      · cases hargs
        refine ⟨rfl, fun s' hs' => ?_⟩
        obtain rfl : s = s' := Option.some.inj (hs.symm.trans hs')
        rw [hcls]
        rfl
  | failed code =>
      refine ⟨fun code2 hcode => ?_, fun args hargs => ?_⟩
      · cases hcode
        exact ⟨rfl, rfl⟩
      · cases hargs

/-- Witness for C6: valid arguments requesting `IComponent`, once with the
remote side delivering a failure status (code returned verbatim, `obj`
untouched) and once with a descriptor (proxy stored downcast to the requested
`IComponent` interface). -/
theorem createInstance_construct_response_outcome_witness :
    ((createInstance (some (List.replicate 16 3)) (some icomponent_tuid) true
        (ConstructResponse.failed (TResult.other 42))).result = TResult.other 42 ∧
      (createInstance (some (List.replicate 16 3)) (some icomponent_tuid) true
        (ConstructResponse.failed (TResult.other 42))).objSlot = ObjSlot.untouched) ∧
    some (createInstance (some (List.replicate 16 3)) (some icomponent_tuid) true
        (ConstructResponse.constructed sampleArgsA)).objSlot =
      (requested_interface_of icomponent_tuid).map
        (ObjSlot.proxyWritten (Vst3PluginProxy.construct sampleArgsA)) :=
  ⟨(createInstance_construct_response_outcome (some (List.replicate 16 3))
      (some icomponent_tuid) true (ConstructResponse.failed (TResult.other 42))
      (by decide)).1 (TResult.other 42) rfl,
    ((createInstance_construct_response_outcome (some (List.replicate 16 3))
      (some icomponent_tuid) true (ConstructResponse.constructed sampleArgsA)
      (by decide)).2 sampleArgsA rfl).2 icomponent_tuid rfl⟩

/-- Claim C9: `createInstance` validates its inputs before any remote
communication. A null `cid`, `_iid` or `obj`, or an `_iid` shorter than a full
TUID, returns `kInvalidArgument`; a well-formed id that is neither
`IComponent::iid` nor `IEditController::iid` writes `nullptr` to `*obj` and
returns `kNotImplemented`; on both paths no `Construct` message is sent. -/
theorem createInstance_validates_before_send (cid iidStr : Option (List Nat))
    (objProvided : Bool) (remote : ConstructResponse) :
    ((cid = none ∨ iidStr = none ∨ objProvided = false ∨
        (∃ s, iidStr = some s ∧ strnlen s 16 < 16)) →
      (createInstance cid iidStr objProvided remote).result = TResult.kInvalidArgument ∧
      (createInstance cid iidStr objProvided remote).objSlot = ObjSlot.untouched ∧
      (createInstance cid iidStr objProvided remote).sent = false) ∧
    (∀ s, iidStr = some s → cid ≠ none → objProvided = true →
      ¬ strnlen s 16 < 16 →
      s.take 16 ≠ icomponent_tuid → s.take 16 ≠ ieditcontroller_tuid →
      (createInstance cid iidStr objProvided remote).result = TResult.kNotImplemented ∧
      (createInstance cid iidStr objProvided remote).objSlot = ObjSlot.nullWritten ∧
      (createInstance cid iidStr objProvided remote).sent = false) := by
  constructor
  · rintro (h | h | h | ⟨s, hs, hlen⟩)
    · subst h; cases iidStr <;> cases objProvided <;> simp [createInstance]
    · subst h; cases cid <;> cases objProvided <;> simp [createInstance]
    · subst h; cases cid <;> cases iidStr <;> simp [createInstance]
    · subst hs; cases cid <;> cases objProvided <;> simp [createInstance, hlen]
  · intro s hs hcid hobj hlen hic hec
    subst hs; subst hobj
    cases cid with
    | none => exact absurd rfl hcid
    | some c => simp [createInstance, hlen, hic, hec]

/-- Witness for C9: a null `cid` is rejected locally with `kInvalidArgument`
and nothing is sent. -/
theorem createInstance_validates_before_send_witness :
    (createInstance none (some icomponent_tuid) true
        (ConstructResponse.failed (TResult.other 1))).result = TResult.kInvalidArgument ∧
    (createInstance none (some icomponent_tuid) true
        (ConstructResponse.failed (TResult.other 1))).objSlot = ObjSlot.untouched ∧
    (createInstance none (some icomponent_tuid) true
        (ConstructResponse.failed (TResult.other 1))).sent = false :=
  (createInstance_validates_before_send none (some icomponent_tuid) true
    (ConstructResponse.failed (TResult.other 1))).1 (Or.inl rfl)

/-- Witness for C1 at the concrete descriptor `sampleArgsA` and the
audio-processor capability. -/
theorem vst3PluginProxy_queryInterface_mirrors_descriptor_witness :
    ((((Vst3PluginProxy.construct sampleArgsA).queryInterface
          Capability.audioProcessor.iid).result = TResult.kResultOk ∧
        (((Vst3PluginProxy.construct sampleArgsA).queryInterface
          Capability.audioProcessor.iid).obj).isSome = true) ↔
      (sampleArgsA.get Capability.audioProcessor).supported = true) :=
  (vst3PluginProxy_queryInterface_mirrors_descriptor sampleArgsA
    Capability.audioProcessor).1

/-- Witness for C7 on a singleton registry holding instance 7. -/
theorem remove_audio_processor_contains_iff_witness :
    ((remove_audio_processor [(7, reentrantChannel)] 7).1 = true ↔
      mapContains [(7, reentrantChannel)] 7 = true) ∧
    mapLookup (remove_audio_processor [(7, reentrantChannel)] 7).2 7 = none :=
  remove_audio_processor_contains_iff [(7, reentrantChannel)] 7
